import Mathlib

/-
Verification of the riskguard-finance scoring and aggregation engine.

The repository contains two variants of the expense classifier:
  - an older variant in supabase/functions/compute-expense/index.ts,
    embedded below in namespace CE;
  - a newer variant (hard caps on the cancelability score, anti-bypass
    override handling, a separate effective rigidity) bundled in
    supabase/functions/projection-first-million/index.ts, embedded below
    in namespace PM.
The monthly aggregation (supabase/functions/month-summary/index.ts), the
income-drop simulation and the growth projection are embedded afterwards.
JavaScript numbers are modelled as rationals, Math.round as
floor (x + 1/2), and String.prototype.trim as jsTrim.
-/

inductive Rigidity where
  | FIXO
  | FLEXIVEL
deriving DecidableEq, BEq, Repr

structure ExpenseInput where
  name : String
  amount : ℚ
  intention : Option String
  contract_months_remaining : ℚ
  notice_days : ℚ
  cancellation_fee_pct : ℚ
  has_legal_link : Bool
  essential_obligation : Bool
  substitutability : ℚ
  override_rigidity : Option Rigidity
  override_reason : Option String
deriving DecidableEq, Repr

/-- Result of the compute-expense edge function (the computed_at audit
timestamp, ambient wall-clock time, is not modelled). -/
structure ComputeResult where
  cancelability_score : ℤ
  computed_rigidity : Rigidity
  rigidity_effective : Rigidity
  warnings : List String
deriving DecidableEq, Repr

def emptyStr : String := ""

def fixoStr : String := "FIXO"

def flexStr : String := "FLEXIVEL"

def essStr : String := "ESSENCIAL"

def confStr : String := "CONFORTO"

def wEscape : String := "Score muito alto (>=90) sem vínculo legal ou contrato ativo. Sistema classificou como FLEXIVEL mesmo com sinais moderados."

def wShortReasonPM : String := "Override para FLEXIVEL requer justificativa com pelo menos 8 caracteres. Override ignorado."

def wBlocked : String := "Override não reduz risco por sinais fortes (vínculo legal, contrato ativo, obrigação essencial ou aviso >= 30 dias)."

def wFee : String := "Multa de cancelamento elevada (>= 50%). Considere aguardar término do contrato."

def wLongContract : String := "Contrato de longo prazo (>= 12 meses restantes). Difícil cancelamento a curto prazo."

def wLowSubst : String := "Baixa substituibilidade. Poucas alternativas disponíveis no mercado."

def wCap50 : String := "Score limitado a 50 devido a vínculo legal."

def wCap60 : String := "Score limitado a 60 devido a contrato ativo."

def wConflictCE : String := "Score alto mas possui sinais de rigidez (vínculo legal, contrato ativo ou obrigação essencial). Avalie com cautela."

def wAdjustedCE : String := "Rigidez ajustada para FIXO devido a sinais de rigidez presentes."

def wShortReasonCE : String := "Override para FLEXIVEL requer justificativa com pelo menos 8 caracteres."

def wNotRecommended : String := "Override não recomendado: existem condições de risco (aviso prévio >= 30 dias, contrato ativo ou vínculo legal)."

/-- JavaScript Math.round: round half toward positive infinity. -/
def jsRound (q : ℚ) : ℤ := ⌊q + 1 / 2⌋

/-- JavaScript String.prototype.trim, modelled on the character list. -/
def jsTrim (s : String) : String :=
  ⟨((s.data.dropWhile Char.isWhitespace).reverse.dropWhile Char.isWhitespace).reverse⟩

namespace CE

/-- calculateCancelabilityScore from compute-expense/index.ts (older
variant, no hard caps). -/
def calculateCancelabilityScore (expense : ExpenseInput) : ℤ :=
  let score : ℚ := 100
  let score := if 0 < expense.contract_months_remaining then
    score - min 30 (expense.contract_months_remaining * 2) else score
  let score := if 0 < expense.cancellation_fee_pct then
    score - min 25 (expense.cancellation_fee_pct / 4) else score
  let score := if expense.has_legal_link then score - 20 else score
  let score := if expense.essential_obligation then score - 15 else score
  let score := score - max 0 ((10 - expense.substitutability) * 2)
  let score := if 0 < expense.notice_days then
    score - min 10 (expense.notice_days / 3) else score
  max 0 (min 100 (jsRound score))

/-- computeRigidityAndWarnings from compute-expense/index.ts (older
variant: the override mutates computedRigidity itself and
rigidity_effective equals computed_rigidity). -/
def computeRigidityAndWarnings (expense : ExpenseInput) (score : ℤ) : ComputeResult :=
  let computedRigidity := if score < 55 then Rigidity.FIXO else Rigidity.FLEXIVEL
  let hasHardSignals := expense.has_legal_link
    || decide (0 < expense.contract_months_remaining)
    || expense.essential_obligation
  let s1 : Rigidity × List String :=
    if hasHardSignals ∧ 55 ≤ score then
      if score < 70 then (Rigidity.FIXO, [wConflictCE, wAdjustedCE])
      else (computedRigidity, [wConflictCE])
    else (computedRigidity, [])
  let s2 : Rigidity × List String :=
    match expense.override_rigidity with
    | none => (s1.1, [])
    | some Rigidity.FLEXIVEL =>
      let overrideReason := jsTrim (expense.override_reason.getD emptyStr)
      if overrideReason.length < 8 then (s1.1, [wShortReasonCE])
      else
        let hasRiskyConditions := decide (30 ≤ expense.notice_days)
          || decide (0 < expense.contract_months_remaining)
          || expense.has_legal_link
        (Rigidity.FLEXIVEL, if hasRiskyConditions then [wNotRecommended] else [])
    | some Rigidity.FIXO => (Rigidity.FIXO, [])
  let w3 := (if 50 ≤ expense.cancellation_fee_pct then [wFee] else [])
    ++ (if 12 ≤ expense.contract_months_remaining then [wLongContract] else [])
    ++ (if expense.substitutability ≤ 2 then [wLowSubst] else [])
  { cancelability_score := score
    computed_rigidity := s2.1
    rigidity_effective := s2.1
    warnings := s1.2 ++ s2.2 ++ w3 }

end CE

namespace PM

/-- calculateCancelabilityScore from the classifier bundled in
projection-first-million/index.ts (newer variant, with the hard caps). -/
def calculateCancelabilityScore (expense : ExpenseInput) : ℤ :=
  let score : ℚ := 100
  let score := if 0 < expense.contract_months_remaining then
    score - min 30 (expense.contract_months_remaining * 2) else score
  let score := if 0 < expense.cancellation_fee_pct then
    score - min 25 (expense.cancellation_fee_pct / 4) else score
  let score := if expense.has_legal_link then score - 20 else score
  let score := if expense.essential_obligation then score - 15 else score
  let score := score - max 0 ((10 - expense.substitutability) * 2)
  let score := if 0 < expense.notice_days then
    score - min 10 (expense.notice_days / 3) else score
  let baseScore : ℤ := max 0 (min 100 (jsRound score))
  let baseScore := if expense.has_legal_link then min baseScore 50 else baseScore
  let baseScore := if 0 < expense.contract_months_remaining then min baseScore 60 else baseScore
  baseScore

def hasHardSignals (expense : ExpenseInput) : Bool :=
  expense.has_legal_link
  || decide (0 < expense.contract_months_remaining)
  || expense.essential_obligation
  || decide (30 ≤ expense.notice_days)

def hasStrongHardSignals (expense : ExpenseInput) : Bool :=
  expense.has_legal_link || decide (0 < expense.contract_months_remaining)

/-- STEP 1 of computeRigidityAndWarnings: computed_rigidity (no override). -/
def step1 (expense : ExpenseInput) (score : ℤ) : Rigidity × List String :=
  if hasHardSignals expense then
    if 90 ≤ score ∧ hasStrongHardSignals expense = false then
      (Rigidity.FLEXIVEL, [wEscape])
    else (Rigidity.FIXO, [])
  else (if score < 55 then Rigidity.FIXO else Rigidity.FLEXIVEL, [])

/-- STEP 2 of computeRigidityAndWarnings: rigidity_effective (override logic). -/
def step2 (expense : ExpenseInput) (computedRigidity : Rigidity) : Rigidity × List String :=
  match expense.override_rigidity with
  | none => (computedRigidity, [])
  | some Rigidity.FLEXIVEL =>
    let overrideReason := jsTrim (expense.override_reason.getD emptyStr)
    if overrideReason.length < 8 then (computedRigidity, [wShortReasonPM])
    else if hasHardSignals expense then (Rigidity.FIXO, [wBlocked])
    else (Rigidity.FLEXIVEL, [])
  | some Rigidity.FIXO => (Rigidity.FIXO, [])

/-- STEP 3 of computeRigidityAndWarnings: contextual warnings. -/
def step3 (expense : ExpenseInput) (score : ℤ) : List String :=
  (if 50 ≤ expense.cancellation_fee_pct then [wFee] else [])
  ++ (if 12 ≤ expense.contract_months_remaining then [wLongContract] else [])
  ++ (if expense.substitutability ≤ 2 then [wLowSubst] else [])
  ++ (if expense.has_legal_link ∧ score = 50 then [wCap50]
      else if 0 < expense.contract_months_remaining ∧ score = 60 ∧ expense.has_legal_link = false then [wCap60]
      else [])

/-- computeRigidityAndWarnings from the classifier bundled in
projection-first-million/index.ts (newer variant). -/
def computeRigidityAndWarnings (expense : ExpenseInput) (score : ℤ) : ComputeResult :=
  let s1 := step1 expense score
  let s2 := step2 expense s1.1
  { cancelability_score := score
    computed_rigidity := s1.1
    rigidity_effective := s2.1
    warnings := s1.2 ++ s2.2 ++ step3 expense score }

end PM

/-- Setting the override fields to absent: two attribute records differ
only in the override inputs exactly when they agree after eraseOverride. -/
def eraseOverride (e : ExpenseInput) : ExpenseInput :=
  { e with override_rigidity := none, override_reason := none }

/-- A persisted row of the public.expenses table, as selected by the
aggregation endpoints (id omitted; the TEXT columns are Option String). -/
structure StoredExpense where
  name : String
  amount : ℚ
  intention : String
  computed_rigidity : Option String
  cancelability_score : Option ℚ
  override_rigidity : Option String
deriving DecidableEq, Repr

def rigStr : Rigidity → String
  | Rigidity.FIXO => fixoStr
  | Rigidity.FLEXIVEL => flexStr

/-- Persistence path of useExpenses.ts (addExpense and updateExpense):
the computed_rigidity column is filled with the classifier's
rigidity_effective, and the raw override_rigidity form value is stored
alongside it. -/
def persist (e : ExpenseInput) (r : ComputeResult) : StoredExpense :=
  { name := e.name
    amount := e.amount
    intention := e.intention.getD essStr
    computed_rigidity := some (rigStr r.rigidity_effective)
    cancelability_score := some (r.cancelability_score : ℚ)
    override_rigidity := Option.map rigStr e.override_rigidity }

structure Bucket where
  total : ℚ
  fixed : ℚ
  flexible : ℚ
deriving DecidableEq, Repr

structure TopFixed where
  name : String
  amount : ℚ
  cancelability_score : Option ℚ
  impact_pct : Option ℚ
deriving DecidableEq, Repr

structure AggState where
  totalExpenses : ℚ
  fixedTotal : ℚ
  flexibleTotal : ℚ
  essentialsTotal : ℚ
  fixedEssentialTotal : ℚ
  unclassifiedCount : ℕ
  noScoreCount : ℕ
  fixedList : List TopFixed
  byIntention : String → Bucket

def initAggState : AggState :=
  { totalExpenses := 0, fixedTotal := 0, flexibleTotal := 0
    essentialsTotal := 0, fixedEssentialTotal := 0
    unclassifiedCount := 0, noScoreCount := 0, fixedList := []
    byIntention := fun _ => { total := 0, fixed := 0, flexible := 0 } }

/-- month-summary/index.ts: has classification, use it; no
classification, treat as FIXO for safety (anti-drible). -/
def msIsFixed (e : StoredExpense) : Bool :=
  match e.computed_rigidity with
  | some s => s == fixoStr
  | none => true

def mkTopFixed (incomeFloor : ℚ) (e : StoredExpense) : TopFixed :=
  { name := e.name
    amount := e.amount
    cancelability_score := e.cancelability_score
    impact_pct := if 0 < incomeFloor
      then some ((jsRound (e.amount / incomeFloor * 1000) : ℚ) / 10) else none }

def bucketAdd (b : Bucket) (amount : ℚ) (isFixed : Bool) : Bucket :=
  { total := b.total + amount
    fixed := if isFixed then b.fixed + amount else b.fixed
    flexible := if isFixed then b.flexible else b.flexible + amount }

/-- One iteration of the month-summary aggregation loop. -/
def aggStep (incomeFloor : ℚ) (st : AggState) (e : StoredExpense) : AggState :=
  let amount := e.amount
  let isFixed := msIsFixed e
  { totalExpenses := st.totalExpenses + amount
    fixedTotal := if isFixed then st.fixedTotal + amount else st.fixedTotal
    flexibleTotal := if isFixed then st.flexibleTotal else st.flexibleTotal + amount
    essentialsTotal := if e.intention == essStr then st.essentialsTotal + amount else st.essentialsTotal
    fixedEssentialTotal := if e.intention == essStr && isFixed then st.fixedEssentialTotal + amount else st.fixedEssentialTotal
    unclassifiedCount := if e.computed_rigidity = none then st.unclassifiedCount + 1 else st.unclassifiedCount
    noScoreCount := if e.cancelability_score = none then st.noScoreCount + 1 else st.noScoreCount
    fixedList := if isFixed then st.fixedList ++ [mkTopFixed incomeFloor e] else st.fixedList
    byIntention := fun k => if k = e.intention then bucketAdd (st.byIntention k) amount isFixed else st.byIntention k }

/-- The month-summary aggregation loop over the fetched expense rows. -/
def aggregate (incomeFloor : ℚ) (es : List StoredExpense) : AggState :=
  es.foldl (aggStep incomeFloor) initAggState

def wUnclassifiedSuffix : String := " despesa(s) sem classificação calculada - tratadas como FIXO por segurança."

def wNoScoreSuffix : String := " despesa(s) sem score de cancelabilidade."

/-- The anti-drible warnings emitted by month-summary after the loop. -/
def antiDribleWarnings (st : AggState) : List String :=
  (if 0 < st.unclassifiedCount then [toString st.unclassifiedCount ++ wUnclassifiedSuffix] else [])
  ++ (if 0 < st.noScoreCount then [toString st.noScoreCount ++ wNoScoreSuffix] else [])

def critStr : String := "Crítico"

def tightStr : String := "Apertado"

def healthyStr : String := "Saudável"

def noDebtStr : String := "Sem dívida"

def wDscrCrit : String := "DSCR abaixo de 1: renda disponível não cobre o serviço da dívida."

def wDscrTight : String := "DSCR entre 1 e 1.5: margem baixa para cobrir dívidas."

/-- The DSCR computation of month-summary/index.ts: the dscr value (null
when there is no positive debt service), its status label and the
warnings this segment appends. -/
def dscrCalc (incomeFloor essentialsTotal debtService : ℚ) : Option ℚ × String × List String :=
  if 0 < debtService then
    let dscr := (incomeFloor - essentialsTotal) / debtService
    if dscr < 1 then (some dscr, critStr, [wDscrCrit])
    else if dscr < 3 / 2 then (some dscr, tightStr, [wDscrTight])
    else (some dscr, healthyStr, [])
  else (none, noDebtStr, [])

/-- JavaScript a ?? b on two nullable strings. -/
def coalesce (a b : Option String) : Option String :=
  match a with
  | some v => some v
  | none => b

/-- The income-drop simulation's per-expense fixedness decision
(unnamed/part_001): rigidityEffective is recomputed as
override_rigidity ?? computed_rigidity, and when that is null the
decision falls back to the cancelability score. -/
def incomeDropIsFixed (e : StoredExpense) : Bool :=
  let rigidityEffective := coalesce e.override_rigidity e.computed_rigidity
  decide (rigidityEffective = some fixoStr)
    || (decide (rigidityEffective = none) && decide (e.cancelability_score.getD 100 < 55))

/-- The income-drop simulation's fixed-total loop. -/
def incomeDropFixedTotal (es : List StoredExpense) : ℚ :=
  es.foldl (fun acc e => if incomeDropIsFixed e then acc + e.amount else acc) 0

def round2 (q : ℚ) : ℚ := (jsRound (q * 100) : ℚ) / 100

def round1 (q : ℚ) : ℚ := (jsRound (q * 10) : ℚ) / 10

structure SimResult where
  income_floor : ℚ
  drop_pct : ℚ
  new_income : ℚ
  fixed_total : ℚ
  deficit : ℚ
  breaks : Bool
  coverage_months : ℚ
deriving DecidableEq, Repr

def errDropStr : String := "drop_pct deve estar entre 0 e 1"

/-- The income-drop simulation endpoint (unnamed/part_001): validation of
drop_pct and assembly of the result from incomeFloor and fixedTotal. -/
def simulateIncomeDrop (dropPct incomeFloor fixedTotal : ℚ) : Except String SimResult :=
  if dropPct < 0 ∨ 1 < dropPct then Except.error errDropStr
  else
    let newIncome := incomeFloor * (1 - dropPct)
    let deficit := fixedTotal - newIncome
    Except.ok
      { income_floor := incomeFloor
        drop_pct := dropPct
        new_income := round2 newIncome
        fixed_total := round2 fixedTotal
        deficit := round2 deficit
        breaks := decide (0 < deficit)
        coverage_months := if 0 < newIncome then round1 (newIncome / fixedTotal) else 0 }

def errContribStr : String := "monthly_contribution deve ser maior que 0"

def errReturnStr : String := "annual_return_pct deve estar entre 0 e 100"

/-- JavaScript Math.round on the real model of a double. -/
noncomputable def jsRoundR (x : ℝ) : ℤ := ⌊x + 1 / 2⌋

noncomputable def round2R (x : ℝ) : ℝ := (jsRoundR (x * 100) : ℝ) / 100

/-- Monthly rate from the annual rate, projection-first-million/index.ts. -/
noncomputable def monthlyRate (annualReturnPct : ℚ) : ℝ :=
  ((1 : ℝ) + (annualReturnPct : ℝ) / 100) ^ ((1 : ℝ) / 12) - 1

structure ProjResult where
  monthly_contribution : ℚ
  annual_return_pct : ℚ
  target : ℚ
  months_to_target : ℤ
  years : ℤ
  remaining_months : ℤ
  final_value : ℝ
  total_contributed : ℝ
  total_gains : ℝ
  gains_percentage : ℝ

open scoped Classical in
/-- The growth projection endpoint (projection-first-million/index.ts,
first document): validation, months to target, verification values.
The presentation-only formatted_time string is not modelled. -/
noncomputable def project (monthlyContribution annualReturnPct targetAmount : ℚ) : Except String ProjResult :=
  if monthlyContribution ≤ 0 then Except.error errContribStr
  else if annualReturnPct < 0 ∨ 100 < annualReturnPct then Except.error errReturnStr
  else
    let r := monthlyRate annualReturnPct
    let months : ℤ :=
      if r = 0 then ⌈(targetAmount : ℝ) / (monthlyContribution : ℝ)⌉
      else ⌈Real.log (1 + (targetAmount : ℝ) * r / (monthlyContribution : ℝ)) / Real.log (1 + r)⌉
    let years := Int.fdiv months 12
    let remainingMonths := Int.tmod months 12
    let finalValue : ℝ :=
      if r = 0 then (monthlyContribution : ℝ) * (months : ℝ)
      else (monthlyContribution : ℝ) * (((1 + r) ^ (months : ℝ) - 1) / r)
    let totalContributed : ℝ := (monthlyContribution : ℝ) * (months : ℝ)
    let totalGains := finalValue - totalContributed
    Except.ok
      { monthly_contribution := monthlyContribution
        annual_return_pct := annualReturnPct
        target := targetAmount
        months_to_target := months
        years := years
        remaining_months := remainingMonths
        final_value := round2R finalValue
        total_contributed := round2R totalContributed
        total_gains := round2R totalGains
        gains_percentage := (jsRoundR (totalGains / totalContributed * 10000) : ℝ) / 100 }

def nmStr : String := "Despesa"

def reasonStr : String := "Assinatura que posso cancelar depois"

/-- C1 and C4 input: legal link, FLEXIVEL override with a valid reason. -/
def exC1 : ExpenseInput :=
  { name := nmStr, amount := 100, intention := none
    contract_months_remaining := 0, notice_days := 0, cancellation_fee_pct := 0
    has_legal_link := true, essential_obligation := false, substitutability := 5
    override_rigidity := some Rigidity.FLEXIVEL, override_reason := some reasonStr }

/-- C3 counterexample input: legal link only, everything else favorable. -/
def exC3 : ExpenseInput :=
  { name := nmStr, amount := 100, intention := none
    contract_months_remaining := 0, notice_days := 0, cancellation_fee_pct := 0
    has_legal_link := true, essential_obligation := false, substitutability := 10
    override_rigidity := none, override_reason := none }

/-- C3 witness input: legal link and an active contract. -/
def exC3w : ExpenseInput :=
  { name := nmStr, amount := 100, intention := none
    contract_months_remaining := 4, notice_days := 0, cancellation_fee_pct := 0
    has_legal_link := true, essential_obligation := false, substitutability := 5
    override_rigidity := none, override_reason := none }

/-- C4 inputs: no hard signals, high score; with and without a FIXO override. -/
def exC4a : ExpenseInput :=
  { name := nmStr, amount := 100, intention := none
    contract_months_remaining := 0, notice_days := 0, cancellation_fee_pct := 0
    has_legal_link := false, essential_obligation := false, substitutability := 10
    override_rigidity := some Rigidity.FIXO, override_reason := none }

def exC4b : ExpenseInput := eraseOverride exC4a

/-- C6 scenario input from the spec. -/
def exC6 : ExpenseInput :=
  { name := nmStr, amount := 1000, intention := none
    contract_months_remaining := 12, notice_days := 0, cancellation_fee_pct := 20
    has_legal_link := true, essential_obligation := false, substitutability := 5
    override_rigidity := none, override_reason := none }

/-- C2 failing row: no stored classification, no override, score 80. -/
def rowC2 : StoredExpense :=
  { name := nmStr, amount := 100, intention := confStr
    computed_rigidity := none, cancelability_score := some 80
    override_rigidity := none }

/-- C2 second row: classified FLEXIVEL but missing score. -/
def rowC2noScore : StoredExpense :=
  { name := nmStr, amount := 50, intention := confStr
    computed_rigidity := some flexStr, cancelability_score := none
    override_rigidity := none }

/-- C5 input: legal link with a valid FLEXIVEL override, whose effective
classification is forced to FIXO by the anti-bypass rule. -/
def exC5 : ExpenseInput :=
  { name := nmStr, amount := 100, intention := none
    contract_months_remaining := 0, notice_days := 0, cancellation_fee_pct := 0
    has_legal_link := true, essential_obligation := false, substitutability := 5
    override_rigidity := some Rigidity.FLEXIVEL, override_reason := some reasonStr }

/-- The C5 row as persisted by useExpenses.ts from the PM classifier. -/
def rowC5 : StoredExpense :=
  persist exC5 (PM.computeRigidityAndWarnings exC5 (PM.calculateCancelabilityScore exC5))

/-- Claim C1 (amended to the classifier variant the spec designates as
intended, the PM variant): for every attribute record with a FLEXIVEL
override, a trimmed reason of length at least 8 and a hard signal
present, the effective rigidity is FIXO and the blocked-override warning
is emitted. -/
theorem c1_override_blocked (e : ExpenseInput)
    (h1 : e.override_rigidity = some Rigidity.FLEXIVEL)
    (h2 : 8 ≤ (jsTrim (e.override_reason.getD emptyStr)).length)
    (h3 : PM.hasHardSignals e = true) :
    (PM.computeRigidityAndWarnings e (PM.calculateCancelabilityScore e)).rigidity_effective = Rigidity.FIXO ∧
    wBlocked ∈ (PM.computeRigidityAndWarnings e (PM.calculateCancelabilityScore e)).warnings := by
  have hs2 : ∀ c, PM.step2 e c = (Rigidity.FIXO, [wBlocked]) := by
    intro c
    unfold PM.step2
    rw [h1]
    dsimp only
    rw [if_neg (by omega), if_pos h3]
  constructor
  · show (PM.step2 e (PM.step1 e (PM.calculateCancelabilityScore e)).1).1 = Rigidity.FIXO
    rw [hs2]
  · show wBlocked ∈ (PM.step1 e (PM.calculateCancelabilityScore e)).2
      ++ (PM.step2 e (PM.step1 e (PM.calculateCancelabilityScore e)).1).2
      ++ PM.step3 e (PM.calculateCancelabilityScore e)
    rw [hs2]
    simp

/-- Claim C1, counterexample against the older compute-expense variant:
at exC1 (legal link, FLEXIVEL override with a valid reason) that
classifier honors the override and returns effective FLEXIVEL. -/
theorem c1_counterexample :
    exC1.override_rigidity = some Rigidity.FLEXIVEL ∧
    8 ≤ (jsTrim (exC1.override_reason.getD emptyStr)).length ∧
    exC1.has_legal_link = true ∧
    (CE.computeRigidityAndWarnings exC1 (CE.calculateCancelabilityScore exC1)).rigidity_effective = Rigidity.FLEXIVEL :=
  of_decide_eq_true (by with_unfolding_all rfl)

/-- Claim C1, witness: the amended theorem applied at exC1. -/
theorem c1_witness :
    exC1.override_rigidity = some Rigidity.FLEXIVEL ∧
    8 ≤ (jsTrim (exC1.override_reason.getD emptyStr)).length ∧
    PM.hasHardSignals exC1 = true ∧
    ((PM.computeRigidityAndWarnings exC1 (PM.calculateCancelabilityScore exC1)).rigidity_effective = Rigidity.FIXO ∧
     wBlocked ∈ (PM.computeRigidityAndWarnings exC1 (PM.calculateCancelabilityScore exC1)).warnings) :=
  ⟨rfl, of_decide_eq_true (by with_unfolding_all rfl),
   of_decide_eq_true (by with_unfolding_all rfl),
   c1_override_blocked exC1 rfl (of_decide_eq_true (by with_unfolding_all rfl))
     (of_decide_eq_true (by with_unfolding_all rfl))⟩

/-- Claim C3 (amended to the PM scorer, the variant with the hard caps):
a legal link caps the score at 50 and an active contract caps it at 60,
regardless of every other input. -/
theorem c3_hard_caps (e : ExpenseInput) :
    (e.has_legal_link = true → PM.calculateCancelabilityScore e ≤ 50) ∧
    (0 < e.contract_months_remaining → PM.calculateCancelabilityScore e ≤ 60) := by
  constructor
  · intro h
    simp only [PM.calculateCancelabilityScore, h]
    split_ifs <;> omega
  · intro h
    simp only [PM.calculateCancelabilityScore, if_pos h]
    split_ifs <;> omega

/-- Claim C3, counterexample against the older compute-expense scorer:
with a legal link and otherwise favorable inputs it returns 80. -/
theorem c3_counterexample :
    exC3.has_legal_link = true ∧ CE.calculateCancelabilityScore exC3 = 80 ∧
    ¬ CE.calculateCancelabilityScore exC3 ≤ 50 :=
  of_decide_eq_true (by with_unfolding_all rfl)

/-- Claim C3, witness: the caps at a record with a legal link and an
active contract. -/
theorem c3_witness :
    exC3w.has_legal_link = true ∧ 0 < exC3w.contract_months_remaining ∧
    PM.calculateCancelabilityScore exC3w ≤ 50 ∧ PM.calculateCancelabilityScore exC3w ≤ 60 :=
  ⟨rfl, of_decide_eq_true (by with_unfolding_all rfl),
   (c3_hard_caps exC3w).1 rfl,
   (c3_hard_caps exC3w).2 (of_decide_eq_true (by with_unfolding_all rfl))⟩

/-- Claim C4 (amended to the PM classifier): computed_rigidity is the
same for any two attribute records that agree after erasing the override
fields — the override never influences the unbiased classification. -/
theorem c4_ignores_override (e1 e2 : ExpenseInput) (h : eraseOverride e1 = eraseOverride e2) :
    (PM.computeRigidityAndWarnings e1 (PM.calculateCancelabilityScore e1)).computed_rigidity =
    (PM.computeRigidityAndWarnings e2 (PM.calculateCancelabilityScore e2)).computed_rigidity := by
  have key : ∀ e : ExpenseInput,
      (PM.computeRigidityAndWarnings e (PM.calculateCancelabilityScore e)).computed_rigidity =
      (PM.computeRigidityAndWarnings (eraseOverride e) (PM.calculateCancelabilityScore (eraseOverride e))).computed_rigidity :=
    fun _ => rfl
  rw [key e1, key e2, h]

/-- Claim C4, counterexample against the older compute-expense variant:
two records differing only in the override get different computed
rigidities (the override mutates computedRigidity there). -/
theorem c4_counterexample :
    eraseOverride exC4a = eraseOverride exC4b ∧
    (CE.computeRigidityAndWarnings exC4a (CE.calculateCancelabilityScore exC4a)).computed_rigidity = Rigidity.FIXO ∧
    (CE.computeRigidityAndWarnings exC4b (CE.calculateCancelabilityScore exC4b)).computed_rigidity = Rigidity.FLEXIVEL :=
  of_decide_eq_true (by with_unfolding_all rfl)

/-- Claim C4, witness: the amended theorem at two concrete records
differing only in the override fields. -/
theorem c4_witness :
    eraseOverride exC4a = eraseOverride exC4b ∧
    (PM.computeRigidityAndWarnings exC4a (PM.calculateCancelabilityScore exC4a)).computed_rigidity =
    (PM.computeRigidityAndWarnings exC4b (PM.calculateCancelabilityScore exC4b)).computed_rigidity :=
  ⟨of_decide_eq_true (by with_unfolding_all rfl),
   c4_ignores_override exC4a exC4b (of_decide_eq_true (by with_unfolding_all rfl))⟩

/-- Claim C6, counterexample: at the spec scenario input both scorers
return 41, not 50 — the spec scenario omitted the substitutability
penalty of 10 points at substitutability 5. -/
theorem c6_counterexample :
    PM.calculateCancelabilityScore exC6 = 41 ∧ CE.calculateCancelabilityScore exC6 = 41 ∧
    PM.calculateCancelabilityScore exC6 ≠ 50 :=
  of_decide_eq_true (by with_unfolding_all rfl)

/-- Claim C6 (amended): at the scenario input the penalties are
24 (contract) + 5 (fee) + 20 (legal) + 10 (substitutability 5), giving
score 41 (the hard caps do not bind) and computed rigidity FIXO, in both
scorer variants. -/
theorem c6_scenario :
    PM.calculateCancelabilityScore exC6 = 41 ∧
    (PM.computeRigidityAndWarnings exC6 (PM.calculateCancelabilityScore exC6)).computed_rigidity = Rigidity.FIXO ∧
    CE.calculateCancelabilityScore exC6 = 41 ∧
    (CE.computeRigidityAndWarnings exC6 (CE.calculateCancelabilityScore exC6)).computed_rigidity = Rigidity.FIXO :=
  of_decide_eq_true (by with_unfolding_all rfl)

/-- Claim C2, evaluation at the failing input: the monthly report treats
the null-rigidity row as FIXO (with counter and warning, and a separate
counter and warning for a missing score), but the income-drop
simulation's fixed-total loop excludes the same row, inferring
flexibility from its cancelability score of 80. -/
theorem c2_null_rigidity_divergence :
    (aggregate 1000 [rowC2]).fixedTotal = 100 ∧
    (aggregate 1000 [rowC2]).flexibleTotal = 0 ∧
    (aggregate 1000 [rowC2]).unclassifiedCount = 1 ∧
    (toString (1 : ℕ) ++ wUnclassifiedSuffix) ∈ antiDribleWarnings (aggregate 1000 [rowC2]) ∧
    (aggregate 1000 [rowC2, rowC2noScore]).noScoreCount = 1 ∧
    (toString (1 : ℕ) ++ wNoScoreSuffix) ∈ antiDribleWarnings (aggregate 1000 [rowC2, rowC2noScore]) ∧
    rowC2.computed_rigidity = none ∧ rowC2.amount = 100 ∧
    incomeDropFixedTotal [rowC2] = 0 :=
  of_decide_eq_true (by with_unfolding_all rfl)

/-- Claim C5: the month-summary split follows the persisted effective
classification (the computed_rigidity column holds rigidity_effective on
the useExpenses.ts persistence path), but the income-drop simulation does
not: at a row whose FLEXIVEL override was blocked (effective FIXO), the
raw override column wins and the row is not counted as fixed. -/
theorem c5_split_follows_effective :
    (∀ (e : ExpenseInput) (r : ComputeResult),
      msIsFixed (persist e r) = true ↔ r.rigidity_effective = Rigidity.FIXO) ∧
    (PM.computeRigidityAndWarnings exC5 (PM.calculateCancelabilityScore exC5)).rigidity_effective = Rigidity.FIXO ∧
    incomeDropIsFixed rowC5 = false := by
  refine ⟨?_, of_decide_eq_true (by with_unfolding_all rfl),
    of_decide_eq_true (by with_unfolding_all rfl)⟩
  intro e r
  rcases r with ⟨sc, cr, re, w⟩
  cases re <;> simp [msIsFixed, persist, rigStr, fixoStr, flexStr]

/-- Claim C7: in the monthly report, dscr is null exactly when the debt
service is zero; with positive debt service it equals
(incomeFloor - essentialsTotal) / debtService, with status Crítico and a
warning below 1, Apertado and a warning in [1, 1.5), and Saudável with no
dscr warning at or above 1.5. -/
theorem c7_dscr (i e d : ℚ) (h : 0 ≤ d) :
    ((dscrCalc i e d).1 = none ↔ d = 0) ∧
    (0 < d →
      (dscrCalc i e d).1 = some ((i - e) / d) ∧
      ((i - e) / d < 1 → (dscrCalc i e d).2.1 = critStr ∧ wDscrCrit ∈ (dscrCalc i e d).2.2) ∧
      (1 ≤ (i - e) / d → (i - e) / d < 3 / 2 →
        (dscrCalc i e d).2.1 = tightStr ∧ wDscrTight ∈ (dscrCalc i e d).2.2) ∧
      (3 / 2 ≤ (i - e) / d → (dscrCalc i e d).2.1 = healthyStr ∧ (dscrCalc i e d).2.2 = [])) := by
  unfold dscrCalc
  by_cases hd : 0 < d
  · rw [if_pos hd]
    dsimp only
    constructor
    · constructor
      · intro hnone; split_ifs at hnone
      · intro h0; rw [h0] at hd; exact absurd hd (lt_irrefl 0)
    · intro _
      refine ⟨?_, ?_, ?_, ?_⟩
      · split_ifs <;> rfl
      · intro hlt; rw [if_pos hlt]; exact ⟨rfl, by simp⟩
      · intro hge hlt
        rw [if_neg (not_lt.mpr hge), if_pos hlt]
        exact ⟨rfl, by simp⟩
      · intro hge
        rw [if_neg (not_lt.mpr (by linarith)), if_neg (not_lt.mpr hge)]
        exact ⟨rfl, rfl⟩
  · rw [if_neg hd]
    have hd0 : d = 0 := le_antisymm (not_lt.mp hd) h
    exact ⟨by simp [hd0], fun h0 => absurd h0 hd⟩

/-- Claim C7, witness: the theorem applied with zero debt service (dscr
null), a healthy case (dscr 2) and a critical case (dscr 1/10). -/
theorem c7_witness :
    (dscrCalc 0 0 0).1 = none ∧
    (dscrCalc 3000 1000 1000).1 = some 2 ∧
    (dscrCalc 3000 1000 1000).2.1 = healthyStr ∧
    (dscrCalc 1000 900 1000).2.1 = critStr ∧
    wDscrCrit ∈ (dscrCalc 1000 900 1000).2.2 := by
  refine ⟨(c7_dscr 0 0 0 le_rfl).1.mpr rfl, ?_, ?_, ?_, ?_⟩
  · rw [((c7_dscr 3000 1000 1000 (by norm_num)).2 (by norm_num)).1]
    norm_num
  · exact (((c7_dscr 3000 1000 1000 (by norm_num)).2 (by norm_num)).2.2.2 (by norm_num)).1
  · exact (((c7_dscr 1000 900 1000 (by norm_num)).2 (by norm_num)).2.1 (by norm_num)).1
  · exact (((c7_dscr 1000 900 1000 (by norm_num)).2 (by norm_num)).2.1 (by norm_num)).2

/-- Claim C8: the income-drop simulation fails exactly when drop_pct is
outside [0,1]; otherwise it returns newIncome, deficit, breaks and
coverageMonths as specified (display values rounded to 2 decimals,
coverage to 1 decimal, as everywhere in the report). -/
theorem c8_income_drop (d i f : ℚ) :
    ((d < 0 ∨ 1 < d) → simulateIncomeDrop d i f = Except.error errDropStr) ∧
    (0 ≤ d → d ≤ 1 → simulateIncomeDrop d i f = Except.ok
      { income_floor := i, drop_pct := d
        new_income := round2 (i * (1 - d))
        fixed_total := round2 f
        deficit := round2 (f - i * (1 - d))
        breaks := decide (0 < f - i * (1 - d))
        coverage_months := if 0 < i * (1 - d) then round1 (i * (1 - d) / f) else 0 }) := by
  constructor
  · intro h; unfold simulateIncomeDrop; rw [if_pos h]
  · intro h0 h1; unfold simulateIncomeDrop
    rw [if_neg (by push_neg; exact ⟨not_lt.mp (by simpa using h0), h1⟩)]

/-- Claim C8, witness: rejection at drop 1.2 and the full result at
drop 0.2 with income 1000 and fixed total 300. -/
theorem c8_witness :
    simulateIncomeDrop (6 / 5) 1000 300 = Except.error errDropStr ∧
    simulateIncomeDrop (1 / 5) 1000 300 = Except.ok
      { income_floor := 1000, drop_pct := 1 / 5, new_income := 800, fixed_total := 300
        deficit := -500, breaks := false, coverage_months := 27 / 10 } := by
  constructor
  · exact (c8_income_drop (6 / 5) 1000 300).1 (Or.inr (by norm_num))
  · rw [(c8_income_drop (1 / 5) 1000 300).2 (by norm_num) (by norm_num)]
    with_unfolding_all rfl

/-- Every aggregation step preserves the two bucket identities. -/
theorem aggStep_inv (fl : ℚ) (st : AggState) (e : StoredExpense)
    (h1 : st.totalExpenses = st.fixedTotal + st.flexibleTotal)
    (h2 : ∀ k, (st.byIntention k).total = (st.byIntention k).fixed + (st.byIntention k).flexible) :
    (aggStep fl st e).totalExpenses = (aggStep fl st e).fixedTotal + (aggStep fl st e).flexibleTotal ∧
    ∀ k, ((aggStep fl st e).byIntention k).total =
      ((aggStep fl st e).byIntention k).fixed + ((aggStep fl st e).byIntention k).flexible := by
  constructor
  · simp only [aggStep]
    cases hf : msIsFixed e <;> simp [hf] <;> linarith
  · intro k
    simp only [aggStep]
    by_cases hk : k = e.intention
    · simp only [if_pos hk, bucketAdd]
      cases hf : msIsFixed e <;> simp [hf] <;> linarith [h2 k]
    · simp only [if_neg hk]
      exact h2 k

/-- The bucket identities hold after folding from any state that has them. -/
theorem aggFold_inv (fl : ℚ) (es : List StoredExpense) :
    ∀ st : AggState,
      st.totalExpenses = st.fixedTotal + st.flexibleTotal →
      (∀ k, (st.byIntention k).total = (st.byIntention k).fixed + (st.byIntention k).flexible) →
      ((es.foldl (aggStep fl) st).totalExpenses =
        (es.foldl (aggStep fl) st).fixedTotal + (es.foldl (aggStep fl) st).flexibleTotal ∧
       ∀ k, ((es.foldl (aggStep fl) st).byIntention k).total =
        ((es.foldl (aggStep fl) st).byIntention k).fixed + ((es.foldl (aggStep fl) st).byIntention k).flexible) := by
  induction es with
  | nil => intro st hA hB; exact ⟨hA, hB⟩
  | cons e tl ih =>
    intro st hA hB
    have h := aggStep_inv fl st e hA hB
    exact ih (aggStep fl st e) h.1 h.2

/-- Claim C10: in the monthly report, totalExpenses equals fixedTotal
plus flexibleTotal, and every per-intention bucket satisfies
total = fixed + flexible — each amount lands in exactly one bucket. -/
theorem c10_bucket_identities (incomeFloor : ℚ) (es : List StoredExpense) :
    (aggregate incomeFloor es).totalExpenses =
      (aggregate incomeFloor es).fixedTotal + (aggregate incomeFloor es).flexibleTotal ∧
    ∀ k, ((aggregate incomeFloor es).byIntention k).total =
      ((aggregate incomeFloor es).byIntention k).fixed + ((aggregate incomeFloor es).byIntention k).flexible :=
  aggFold_inv incomeFloor es initAggState (by norm_num [initAggState])
    (fun _ => by norm_num [initAggState])

/-- With a zero annual rate the computed monthly rate is exactly zero. -/
theorem monthlyRate_zero : monthlyRate 0 = 0 := by
  unfold monthlyRate
  push_cast
  rw [zero_div, add_zero, Real.one_rpow, sub_self]

/-- Claim C9: the growth projection fails when the contribution is
nonpositive or the annual return is outside [0,100]; with a zero annual
rate it returns months = ceil(target/contribution) and finalValue and
totalContributed both equal to contribution times months (display values
rounded to 2 decimals). -/
theorem c9_growth_projection (c a t : ℚ) :
    (c ≤ 0 → project c a t = Except.error errContribStr) ∧
    (0 < c → (a < 0 ∨ 100 < a) → project c a t = Except.error errReturnStr) ∧
    (0 < c → a = 0 → project c a t = Except.ok
      { monthly_contribution := c, annual_return_pct := a, target := t
        months_to_target := ⌈t / c⌉
        years := Int.fdiv ⌈t / c⌉ 12
        remaining_months := Int.tmod ⌈t / c⌉ 12
        final_value := round2R ((c : ℝ) * (⌈t / c⌉ : ℝ))
        total_contributed := round2R ((c : ℝ) * (⌈t / c⌉ : ℝ))
        total_gains := 0
        gains_percentage := 0 }) := by
  refine ⟨?_, ?_, ?_⟩
  · intro h; unfold project; rw [if_pos h]
  · intro hc hr; unfold project; rw [if_neg (not_le.mpr hc), if_pos hr]
  · intro hc ha
    subst ha
    unfold project
    rw [if_neg (not_le.mpr hc), if_neg (by norm_num)]
    have hceil : ⌈(t : ℝ) / (c : ℝ)⌉ = ⌈t / c⌉ := by
      rw [show (t : ℝ) / (c : ℝ) = ((t / c : ℚ) : ℝ) by push_cast; ring]
      exact Rat.ceil_cast _
    have hz : round2R 0 = 0 := by norm_num [round2R, jsRoundR]
    have hj : jsRoundR 0 = 0 := by norm_num [jsRoundR]
    simp only [monthlyRate_zero, eq_self_iff_true, if_true, hceil, sub_self, zero_div,
      zero_mul, hz, hj, Int.cast_zero]

/-- Claim C9, witness: contribution 100, annual return 0, target 1000
gives 10 months, final value 1000 and total contributed 1000. -/
theorem c9_witness :
    project 100 0 1000 = Except.ok
      { monthly_contribution := 100, annual_return_pct := 0, target := 1000
        months_to_target := 10, years := 0, remaining_months := 10
        final_value := 1000, total_contributed := 1000, total_gains := 0
        gains_percentage := 0 } := by
  rw [(c9_growth_projection 100 0 1000).2.2 (by norm_num) rfl]
  have hc : ⌈(1000 : ℚ) / 100⌉ = 10 := by norm_num
  have hf : Int.fdiv (10 : ℤ) 12 = 0 := by decide
  have ht : Int.tmod (10 : ℤ) 12 = 10 := by decide
  have hv : round2R (((100 : ℚ) : ℝ) * ((10 : ℤ) : ℝ)) = 1000 := by
    push_cast
    norm_num [round2R, jsRoundR]
  rw [hc, hf, ht, hv]
